import Mathlib

/-!
Verification of the NCCA py-ngl examples repository.

This file gives a shallow embedding of the parts of the repository that the
verified properties talk about:

* `MultiBufferIndexVAO` (VertexArrayObject/ExtendedVAOFactory/MultiBufferIndexVAO.py):
  the VAO state, its `draw`, `set_data` and `set_indices` methods, with the
  OpenGL calls they issue modelled as an explicit call trace and buffer-name
  generation modelled by a fresh-id counter (glGenBuffers returns nonzero names).
* the per-demo `loadMatricesToShader` / `paintGL` MVP computations (matrices over ℚ).
* the shared `mouseMoveEvent` handler of the six VertexArrayObject demos and the
  rotation-only handler of the PBR demo (floats modelled as ℚ, Python `int()`
  truncation modelled by `pyInt`).
* the icosahedron vertex/index data and the sphere tessellation loop of
  Sphere/main.py (parametric in the trigonometric functions, which the counted
  properties do not depend on).
-/

/-- OpenGL enum GL_TRIANGLES. -/
def GL_TRIANGLES : ℕ := 4

/-- OpenGL enum GL_UNSIGNED_BYTE. -/
def GL_UNSIGNED_BYTE : ℕ := 5121

/-- OpenGL enum GL_UNSIGNED_SHORT. -/
def GL_UNSIGNED_SHORT : ℕ := 5123

/-- OpenGL enum GL_UNSIGNED_INT. -/
def GL_UNSIGNED_INT : ℕ := 5125

/-- OpenGL enum GL_FLOAT (used only as an example of an unsupported index type). -/
def GL_FLOAT : ℕ := 5126

/-- OpenGL enum GL_ARRAY_BUFFER. -/
def GL_ARRAY_BUFFER : ℕ := 34962

/-- OpenGL enum GL_ELEMENT_ARRAY_BUFFER. -/
def GL_ELEMENT_ARRAY_BUFFER : ℕ := 34963

/-- OpenGL enum GL_STATIC_DRAW. -/
def GL_STATIC_DRAW : ℕ := 35044

/-- Qt.LeftButton. -/
def Qt_LeftButton : ℕ := 1

/-- Qt.RightButton. -/
def Qt_RightButton : ℕ := 2

/-- One OpenGL call issued by a VAO method.  `bufferData` records the byte size
of the uploaded array (numpy `nbytes`) and the usage mode; `drawElements`
records mode, element count, index type, and byte offset. -/
inductive GLCall where
  | genBuffers (n : ℕ)
  | bindBuffer (target : ℕ) (buffer : ℕ)
  | bufferData (target : ℕ) (nbytes : ℕ) (usage : ℕ)
  | drawElements (mode : ℕ) (count : ℤ) (indexType : ℕ) (offset : ℤ)
  deriving DecidableEq, Repr

/-- The part of the GL context state the VAO methods touch: a counter for
generating fresh buffer names.  glGenBuffers hands out the names
`nextBufferId + 1, ...`, all nonzero as OpenGL guarantees. -/
structure GLState where
  nextBufferId : ℕ
  deriving DecidableEq, Repr

/-- ngl VertexData as used by `MultiBufferIndexVAO.set_data`: the float list
and the buffer usage mode.  A list of Python floats is converted to a
float32 array, so its `nbytes` is `4 * length`. -/
structure VertexData where
  data : List ℚ
  mode : ℕ
  deriving DecidableEq, Repr

/-- State of a MultiBufferIndexVAO object (fields of
MultiBufferIndexVAO.__init__ plus the AbstractVAO fields the methods read). -/
structure MultiBufferIndexVAO where
  m_mode : ℕ
  m_bound : Bool
  m_allocated : Bool
  m_vbo_ids : List ℕ
  m_index_buffer_id : ℕ
  m_index_type : ℕ
  m_indicesCount : ℕ
  deriving DecidableEq, Repr

/-- `MultiBufferIndexVAO.draw(start_index, amount)`.  The method assigns no
attribute of `self`, so the embedding returns the (unchanged) state together
with the draw call it issues, if any.  `None` means the method returned after
logging an error (unbound/unallocated VAO or unsupported index type) or
because the computed count was not positive. -/
def MultiBufferIndexVAO.draw (vao : MultiBufferIndexVAO) (start_index : ℤ)
    (amount : ℤ) : MultiBufferIndexVAO × Option GLCall :=
  if vao.m_bound && vao.m_allocated then
    let count : ℤ := if amount = -1 then (vao.m_indicesCount : ℤ) - start_index else amount
    if count ≤ 0 then (vao, none)
    else if vao.m_index_type = GL_UNSIGNED_INT then
      (vao, some (GLCall.drawElements vao.m_mode count vao.m_index_type (start_index * 4)))
    else if vao.m_index_type = GL_UNSIGNED_SHORT then
      (vao, some (GLCall.drawElements vao.m_mode count vao.m_index_type (start_index * 2)))
    else if vao.m_index_type = GL_UNSIGNED_BYTE then
      (vao, some (GLCall.drawElements vao.m_mode count vao.m_index_type (start_index * 1)))
    else (vao, none)
  else (vao, none)

/-- Body of `MultiBufferIndexVAO.set_data(data, index)` after the isinstance
check (see `set_data_checked` for the check itself).  Returns the new GL
state, the new VAO state, and the trace of GL calls issued.  When unbound
the method logs and returns without touching anything. -/
def MultiBufferIndexVAO.set_data (gl : GLState) (vao : MultiBufferIndexVAO)
    (data : VertexData) (index : Option ℕ) :
    GLState × MultiBufferIndexVAO × List GLCall :=
  if vao.m_bound = false then (gl, vao, [])
  else
    let idx := match index with
      | none => vao.m_vbo_ids.length
      | some i => i
    if vao.m_vbo_ids.length ≤ idx then
      let new_buffers := idx - vao.m_vbo_ids.length + 1
      let new_ids := (List.range new_buffers).map (fun k => gl.nextBufferId + 1 + k)
      let ids := vao.m_vbo_ids ++ new_ids
      (⟨gl.nextBufferId + new_buffers⟩,
       { vao with m_vbo_ids := ids, m_allocated := true },
       [GLCall.genBuffers new_buffers,
        GLCall.bindBuffer GL_ARRAY_BUFFER (ids.getD idx 0),
        GLCall.bufferData GL_ARRAY_BUFFER (4 * data.data.length) data.mode])
    else
      (gl,
       { vao with m_allocated := true },
       [GLCall.bindBuffer GL_ARRAY_BUFFER (vao.m_vbo_ids.getD idx 0),
        GLCall.bufferData GL_ARRAY_BUFFER (4 * data.data.length) data.mode])

/-- Body of `MultiBufferIndexVAO.set_indices(data, index_type, mode)` after the
isinstance check.  The index buffer is generated only while
`m_index_buffer_id == 0`; `m_index_type` and `m_indicesCount` are assigned
before the index type is dispatched, so an unsupported type returns after
those assignments with no upload. -/
def MultiBufferIndexVAO.set_indices (gl : GLState) (vao : MultiBufferIndexVAO)
    (data : List ℤ) (index_type : ℕ) (mode : ℕ) :
    GLState × MultiBufferIndexVAO × List GLCall :=
  if vao.m_bound = false then (gl, vao, [])
  else
    let gl2 : GLState := if vao.m_index_buffer_id = 0 then ⟨gl.nextBufferId + 1⟩ else gl
    let bufId := if vao.m_index_buffer_id = 0 then gl.nextBufferId + 1 else vao.m_index_buffer_id
    let genTrace : List GLCall := if vao.m_index_buffer_id = 0 then [GLCall.genBuffers 1] else []
    let vao2 := { vao with
      m_index_buffer_id := bufId
      m_index_type := index_type
      m_indicesCount := data.length }
    if index_type = GL_UNSIGNED_INT then
      (gl2, vao2, genTrace ++
        [GLCall.bindBuffer GL_ELEMENT_ARRAY_BUFFER bufId,
         GLCall.bufferData GL_ELEMENT_ARRAY_BUFFER (4 * data.length) mode])
    else if index_type = GL_UNSIGNED_SHORT then
      (gl2, vao2, genTrace ++
        [GLCall.bindBuffer GL_ELEMENT_ARRAY_BUFFER bufId,
         GLCall.bufferData GL_ELEMENT_ARRAY_BUFFER (2 * data.length) mode])
    else if index_type = GL_UNSIGNED_BYTE then
      (gl2, vao2, genTrace ++
        [GLCall.bindBuffer GL_ELEMENT_ARRAY_BUFFER bufId,
         GLCall.bufferData GL_ELEMENT_ARRAY_BUFFER (1 * data.length) mode])
    else
      (gl2, vao2, genTrace)

/-- A Python value passed as the `data` argument of a VAO method: a
VertexData object, a list of ints, or anything else. -/
inductive PyArg where
  | vertexData (v : VertexData)
  | intList (l : List ℤ)
  | other
  deriving DecidableEq, Repr

/-- `MultiBufferIndexVAO.set_data` including its leading isinstance check:
a non-VertexData argument logs an error and then raises
`TypeError("data must be of type VertexData")` to the caller. -/
def MultiBufferIndexVAO.set_data_checked (gl : GLState) (vao : MultiBufferIndexVAO)
    (arg : PyArg) (index : Option ℕ) :
    Except String (GLState × MultiBufferIndexVAO × List GLCall) :=
  match arg with
  | PyArg.vertexData v => Except.ok (MultiBufferIndexVAO.set_data gl vao v index)
  | _ => Except.error "data must be of type VertexData"

/-- `MultiBufferIndexVAO.set_indices` including its leading isinstance check:
a non-list argument logs an error and then raises
`TypeError("data must be of type List")` to the caller. -/
def MultiBufferIndexVAO.set_indices_checked (gl : GLState) (vao : MultiBufferIndexVAO)
    (arg : PyArg) (index_type : ℕ) (mode : ℕ) :
    Except String (GLState × MultiBufferIndexVAO × List GLCall) :=
  match arg with
  | PyArg.intList l => Except.ok (MultiBufferIndexVAO.set_indices gl vao l index_type mode)
  | _ => Except.error "data must be of type List"

/-- Shader-load failure handling shared by the demos' `initializeGL`
(for example PBR/PBRTexture/main.py and ExtendedVAOFactory/main.py):
when `ShaderLib.load_shader` returns False the demo logs an error and calls
`self.close()`.  Returns whether `close()` is called. -/
def initializeGL_closes_on_shader_failure (load_ok : Bool) : Bool :=
  !load_ok

/-- Byte width of a supported index element type as used by
`MultiBufferIndexVAO.draw` (4 for GL_UNSIGNED_INT, 2 for GL_UNSIGNED_SHORT,
1 for GL_UNSIGNED_BYTE; 0 stands for an unsupported type, for which no draw
call is ever issued). -/
def index_type_byte_width (t : ℕ) : ℤ :=
  if t = GL_UNSIGNED_INT then 4
  else if t = GL_UNSIGNED_SHORT then 2
  else if t = GL_UNSIGNED_BYTE then 1
  else 0

/-- Folding a sequence of `set_data(data, index=None)` calls over a VAO. -/
def set_data_none_iter (gl : GLState) (vao : MultiBufferIndexVAO) :
    List VertexData → GLState × MultiBufferIndexVAO
  | [] => (gl, vao)
  | d :: rest =>
    let r := MultiBufferIndexVAO.set_data gl vao d none
    set_data_none_iter r.1 r.2.1 rest

/-- Number of glGenBuffers calls in a trace. -/
def genBufferCount (trace : List GLCall) : ℕ :=
  (trace.filter fun c => match c with
    | GLCall.genBuffers _ => true
    | _ => false).length

/-- Folding a sequence of `set_indices(data, index_type, mode)` calls over a
VAO, accumulating the total number of glGenBuffers calls issued. -/
def set_indices_iter (gl : GLState) (vao : MultiBufferIndexVAO) :
    List (List ℤ × ℕ × ℕ) → GLState × MultiBufferIndexVAO × ℕ
  | [] => (gl, vao, 0)
  | (d, t, m) :: rest =>
    let r := MultiBufferIndexVAO.set_indices gl vao d t m
    let rec_r := set_indices_iter r.1 r.2.1 rest
    (rec_r.1, rec_r.2.1, genBufferCount r.2.2 + rec_r.2.2)

/-! ## Demo MVP computations

The demos' matrices (`ngl.Mat4`) are modelled as 4×4 rational matrices; the
Python `@` operator is matrix multiplication and associates to the left. -/

/-- 4×4 matrix over ℚ, the model of ngl.Mat4. -/
abbrev Mat4 : Type := Matrix (Fin 4) (Fin 4) ℚ

/-- A pure-translation transform matrix: the matrix of an ngl `Transform` whose
only set component is its position, following the row-3 translation
convention the demos themselves use (their `paintGL` writes the model
position into `mouseGlobalTX[3][0..2]`). -/
def translation_mat (x y z : ℚ) : Mat4 :=
  Matrix.of fun i j =>
    if i = 3 ∧ j = 0 then x
    else if i = 3 ∧ j = 1 then y
    else if i = 3 ∧ j = 2 then z
    else if i = j then 1 else 0

/-- Sphere/main.py `loadMatricesToShader`: `mvp = self.project @ self.view @ self.mouseGlobalTX`. -/
def sphere_mvp (project view mouseGlobalTX : Mat4) : Mat4 :=
  project * view * mouseGlobalTX

/-- SimpleIndexVAOFactory/main.py `loadMatricesToShader`: `mvp = self.project @ self.view @ self.mouseGlobalTX`. -/
def simple_index_mvp (project view mouseGlobalTX : Mat4) : Mat4 :=
  project * view * mouseGlobalTX

/-- ChangingVAO/main.py `loadMatricesToShader`: `mvp = self.project @ self.view @ self.mouseGlobalTX`. -/
def changing_vao_mvp (project view mouseGlobalTX : Mat4) : Mat4 :=
  project * view * mouseGlobalTX

/-- Boid/main.py `loadMatricesToShader`: `mvp = self.project @ self.view @ self.mouseGlobalTX`. -/
def boid_mvp (project view mouseGlobalTX : Mat4) : Mat4 :=
  project * view * mouseGlobalTX

/-- BoidShaded/main.py `loadMatricesToShader`:
`MV = self.view @ self.mouseGlobalTX; mvp = self.project @ MV`. -/
def boid_shaded_mvp (project view mouseGlobalTX : Mat4) : Mat4 :=
  let MV := view * mouseGlobalTX
  project * MV

/-- ExtendedVAOFactory/main.py `paintGL`:
`mvp = self.project @ self.view @ t.get_matrix() @ mouse_global_tx`
where `t` is a `Transform` with position set per drawn object. -/
def extended_vao_mvp (project view t mouse_global_tx : Mat4) : Mat4 :=
  project * view * t * mouse_global_tx

/-- The first MVP value ExtendedVAOFactory/main.py `paintGL` writes to the
"MVP" uniform before drawing: `t.set_position(-1.2, 0.0, 0.0)`, so
`t.get_matrix()` is the translation by (-1.2, 0, 0). -/
def extended_vao_first_draw_mvp (project view mouse_global_tx : Mat4) : Mat4 :=
  extended_vao_mvp project view (translation_mat (-(6/5)) 0 0) mouse_global_tx

/-- PBR/PBRTexture/main.py `load_matrices_to_colour_shader`:
`M = self.mouse_global_tx @ self.transform.get_matrix()`,
`MV = self.camera.view @ M`, `MVP = self.camera.projection @ MV`. -/
def pbr_colour_mvp (projection view mouse_global_tx transformM : Mat4) : Mat4 :=
  let M := mouse_global_tx * transformM
  let MV := view * M
  projection * MV

/-! ## Demo mouse handlers -/

/-- Python `int()` applied to a rational: truncation toward zero. -/
def pyInt (q : ℚ) : ℤ := if q < 0 then ⌈q⌉ else ⌊q⌋

/-- The window state read and written by `mouseMoveEvent`.  Field names follow
the six VertexArrayObject demos; the PBR demo's `spin_x_face`,
`original_x_rotation`, `model_position` correspond to `spinXFace`, `origX`,
`modelPos`. -/
structure DemoMouseState where
  spinXFace : ℤ
  spinYFace : ℤ
  rotate : Bool
  translate : Bool
  origX : ℚ
  origY : ℚ
  origXPos : ℚ
  origYPos : ℚ
  modelPosX : ℚ
  modelPosY : ℚ
  modelPosZ : ℚ
  deriving DecidableEq, Repr

/-- `mouseMoveEvent` shared verbatim by the Sphere, SimpleIndexVAOFactory,
ChangingVAO, ExtendedVAOFactory, Boid and BoidShaded demos.  `INCREMENT` is
the per-pixel translation increment (0.01 in every demo); `buttons` is the
Qt button mask of the event and `px`, `py` its position. -/
def vao_demo_mouseMoveEvent (INCREMENT : ℚ) (s : DemoMouseState)
    (buttons : ℕ) (px py : ℚ) : DemoMouseState :=
  if s.rotate && (buttons == Qt_LeftButton) then
    let diffx := px - s.origX
    let diffy := py - s.origY
    { s with
      spinXFace := s.spinXFace + pyInt (1/2 * diffy)
      spinYFace := s.spinYFace + pyInt (1/2 * diffx)
      origX := px
      origY := py }
  else if s.translate && (buttons == Qt_RightButton) then
    let diffX := pyInt (px - s.origXPos)
    let diffY := pyInt (py - s.origYPos)
    { s with
      origXPos := px
      origYPos := py
      modelPosX := s.modelPosX + INCREMENT * (diffX : ℚ)
      modelPosY := s.modelPosY - INCREMENT * (diffY : ℚ) }
  else s

/-- PBR/PBRTexture/main.py `mouseMoveEvent`: only the rotation branch exists;
there is no translation branch, so right-button drags never move the model
position.  (The camera.process_mouse_movement call touches only the
camera object, not this state.) -/
def pbr_mouseMoveEvent (s : DemoMouseState) (buttons : ℕ) (px py : ℚ) :
    DemoMouseState :=
  if s.rotate && (buttons == Qt_LeftButton) then
    let diff_x := px - s.origX
    let diff_y := py - s.origY
    { s with
      spinXFace := s.spinXFace + pyInt (1/2 * diff_y)
      spinYFace := s.spinYFace + pyInt (1/2 * diff_x)
      origX := px
      origY := py }
  else s

/-! ## Icosahedron mesh data (SimpleIndexVAOFactory and ExtendedVAOFactory) -/

/-- ngl Vec3 as a rational triple. -/
def Vec3 : Type := ℚ × ℚ × ℚ

instance : DecidableEq Vec3 := inferInstanceAs (DecidableEq (ℚ × ℚ × ℚ))

/-- SimpleIndexVAOFactory/main.py `buildVAO` `verts`: 12 icosahedron vertex
positions, each interleaved with a colour Vec3 (position at even slots,
colour at odd slots). -/
def simple_index_verts : List Vec3 :=
  [(-0.262865, 0, 0.425325), (1, 0, 0),
   (0.262865, 0, 0.425325), (1, 0.55, 0),
   (-0.262865, 0, -0.425325), (1, 0, 1),
   (0.262865, 0, -0.425325), (0, 1, 0),
   (0, 0.425325, 0.262865), (0, 0, 1),
   (0, 0.425325, -0.262865), (0.29, 0.51, 0),
   (0, -0.425325, 0.262865), (0.5, 0, 0.5),
   (0, -0.425325, -0.262865), (1, 1, 1),
   (0.425325, 0.262865, 0), (0, 1, 1),
   (-0.425325, 0.262865, 0), (0, 0, 0),
   (0.425325, -0.262865, 0), (0.12, 0.56, 1),
   (-0.425325, -0.262865, 0), (0.86, 0.08, 0.24)]

/-- SimpleIndexVAOFactory/main.py `buildVAO` `indices`. -/
def simple_index_indices : List ℕ :=
  [0, 6, 1, 0, 11, 6, 1, 4, 0, 1, 8, 4, 1, 10, 8, 2, 5, 3,
   2, 9, 5, 2, 11, 9, 3, 7, 2, 3, 10, 7, 4, 8, 5, 4, 9, 0,
   5, 8, 3, 5, 9, 4, 6, 10, 1, 6, 11, 7, 7, 10, 6, 7, 11, 2,
   8, 10, 3, 9, 11, 0]

/-- ExtendedVAOFactory/main.py `build_vao` `verts`: the 12 icosahedron vertex
positions (colours live in a separate buffer there). -/
def extended_vao_verts : List Vec3 :=
  [(-0.262865, 0, 0.425325),
   (0.262865, 0, 0.425325),
   (-0.262865, 0, -0.425325),
   (0.262865, 0, -0.425325),
   (0, 0.425325, 0.262865),
   (0, 0.425325, -0.262865),
   (0, -0.425325, 0.262865),
   (0, -0.425325, -0.262865),
   (0.425325, 0.262865, 0),
   (-0.425325, 0.262865, 0),
   (0.425325, -0.262865, 0),
   (-0.425325, -0.262865, 0)]

/-- ExtendedVAOFactory/main.py `build_vao` `colours`. -/
def extended_vao_colours : List Vec3 :=
  [(1, 0, 0), (1, 0.55, 0), (1, 0, 1), (0, 1, 0), (0, 0, 1), (0.29, 0.51, 0),
   (0.5, 0, 0.5), (1, 1, 1), (0, 1, 1), (0, 0, 0), (0.12, 0.56, 1),
   (0.86, 0.08, 0.24)]

/-- ExtendedVAOFactory/main.py `build_vao` `indices`. -/
def extended_vao_indices : List ℕ :=
  [0, 6, 1, 0, 11, 6, 1, 4, 0, 1, 8, 4, 1, 10, 8, 2, 5, 3, 2, 9, 5, 2, 11, 9,
   3, 7, 2, 3, 10, 7, 4, 8, 5, 4, 9, 0, 5, 8, 3, 5, 9, 4, 6, 10, 1, 6, 11, 7,
   7, 10, 6, 7, 11, 2, 8, 10, 3, 9, 11, 0]

/-! ## Sphere tessellation (Sphere/main.py `build_vao_sphere`)

The generated coordinates are trigonometric expressions of the loop indices;
the embedding is parametric in `piV`, `cosF`, `sinF` (the values of `math.pi`,
`math.cos`, `math.sin`), since the counted properties hold for any such
functions. -/

/-- The 16 floats one inner-loop iteration of `build_vao_sphere` appends to
`vertex_data`: two interleaved vertices (position, normal, UV) of the
triangle strip, computed from loop indices `i` (ring) and `j` (segment) and
the clamped precision `pn`. -/
def sphere_vertex_pair (piV : ℚ) (cosF sinF : ℚ → ℚ) (radius : ℚ)
    (pn : ℕ) (i j : ℕ) : List ℚ :=
  let theta1 := (i : ℚ) * (2 * piV) / (pn : ℚ) - piV / 2
  let theta2 := ((i : ℚ) + 1) * (2 * piV) / (pn : ℚ) - piV / 2
  let theta3 := (j : ℚ) * (2 * piV) / (pn : ℚ)
  let nx1 := cosF theta2 * cosF theta3
  let ny1 := sinF theta2
  let nz1 := cosF theta2 * sinF theta3
  let u1 := (j : ℚ) / (pn : ℚ)
  let v1 := 1 - 2 * ((i : ℚ) + 1) / (pn : ℚ)
  let nx2 := cosF theta1 * cosF theta3
  let ny2 := sinF theta1
  let nz2 := cosF theta1 * sinF theta3
  let u2 := (j : ℚ) / (pn : ℚ)
  let v2 := 1 - 2 * (i : ℚ) / (pn : ℚ)
  [radius * nx1, radius * ny1, radius * nz1, nx1, ny1, nz1, u1, v1,
   radius * nx2, radius * ny2, radius * nz2, nx2, ny2, nz2, u2, v2]

/-- The interleaved `vertex_data` list built by `build_vao_sphere(radius,
precision)`: the radius is replaced by its absolute value and the precision
clamped to at least 4, then the two nested loops run over
`range(precision // 2)` and `range(precision + 1)`. -/
def build_vao_sphere_vertex_data (piV : ℚ) (cosF sinF : ℚ → ℚ)
    (radius : ℚ) (precision : ℤ) : List ℚ :=
  let radius := if radius < 0 then -radius else radius
  let p : ℤ := if precision < 4 then 4 else precision
  let pn : ℕ := p.toNat
  (List.range (pn / 2)).flatMap fun i =>
    (List.range (pn + 1)).flatMap fun j =>
      sphere_vertex_pair piV cosF sinF radius pn i j

/-- `num_verts = len(vertex_data) // 8`, the vertex count `build_vao_sphere`
registers with `set_num_indices`. -/
def build_vao_sphere_num_verts (piV : ℚ) (cosF sinF : ℚ → ℚ)
    (radius : ℚ) (precision : ℤ) : ℕ :=
  (build_vao_sphere_vertex_data piV cosF sinF radius precision).length / 8

/-! ## Concrete states for witnesses and counterexamples -/

/-- A fresh GL context. -/
def gl0 : GLState := ⟨0⟩

/-- A bound, allocated VAO holding a short index buffer of three indices. -/
def vao_bound_short : MultiBufferIndexVAO :=
  ⟨GL_TRIANGLES, true, true, [1], 2, GL_UNSIGNED_SHORT, 3⟩

/-- A VAO that has never been bound or allocated (the state right after
construction). -/
def vao_unbound : MultiBufferIndexVAO :=
  ⟨GL_TRIANGLES, false, false, [], 0, GL_UNSIGNED_SHORT, 0⟩

/-- A sample VertexData payload of three floats. -/
def vd0 : VertexData := ⟨[1, 2, 3], GL_STATIC_DRAW⟩

/-- A window state in which the user has pressed the right mouse button (so
`translate` is set) with the drag origin at the window origin. -/
def pbr_cex_state : DemoMouseState :=
  ⟨0, 0, false, true, 0, 0, 0, 0, 0, 0, 0⟩

/-! ## Helper lemmas -/

/-- Flattening a constant-length family over a list multiplies the lengths. -/
theorem flatMap_const_length {α β : Type} (l : List α) (f : α → List β) (k : ℕ)
    (h : ∀ x, (f x).length = k) : (l.flatMap f).length = l.length * k := by
  induction l with
  | nil => simp
  | cons a t ih =>
    simp [List.flatMap_cons, h a, ih, Nat.succ_mul, Nat.add_comm]

/-- One inner iteration of the sphere loop appends 16 floats. -/
theorem sphere_vertex_pair_length (piV : ℚ) (cosF sinF : ℚ → ℚ) (radius : ℚ)
    (pn i j : ℕ) : (sphere_vertex_pair piV cosF sinF radius pn i j).length = 16 := by
  rfl

/-! ## Claim theorems -/

/-- C9: `build_vao_sphere` first replaces the radius by its absolute value and
the precision by `max(precision, 4)`, then generates an interleaved vertex
array of exactly `16 * (precision // 2) * (precision + 1)` floats (8 floats
per vertex), and registers `2 * (precision // 2) * (precision + 1)` vertices
for drawing — for every radius, precision, and any values of the
trigonometric functions. -/
theorem build_vao_sphere_counts (piV : ℚ) (cosF sinF : ℚ → ℚ)
    (radius : ℚ) (precision : ℤ) :
    (build_vao_sphere_vertex_data piV cosF sinF radius precision).length
      = 16 * ((if precision < 4 then 4 else precision).toNat / 2)
          * ((if precision < 4 then 4 else precision).toNat + 1)
    ∧ build_vao_sphere_num_verts piV cosF sinF radius precision
      = 2 * ((if precision < 4 then 4 else precision).toNat / 2)
          * ((if precision < 4 then 4 else precision).toNat + 1) := by
  have hlen :
      (build_vao_sphere_vertex_data piV cosF sinF radius precision).length
        = 16 * ((if precision < 4 then 4 else precision).toNat / 2)
            * ((if precision < 4 then 4 else precision).toNat + 1) := by
    unfold build_vao_sphere_vertex_data
    rw [flatMap_const_length _ _ (((if precision < 4 then 4 else precision).toNat + 1) * 16)]
    · rw [List.length_range]
      ring
    · intro i
      rw [flatMap_const_length _ _ 16]
      · rw [List.length_range]
      · intro j
        exact sphere_vertex_pair_length _ _ _ _ _ _ _
  refine ⟨hlen, ?_⟩
  unfold build_vao_sphere_num_verts
  rw [hlen]
  have h8 : 16 * ((if precision < 4 then 4 else precision).toNat / 2)
      * ((if precision < 4 then 4 else precision).toNat + 1)
      = 8 * (2 * ((if precision < 4 then 4 else precision).toNat / 2)
          * ((if precision < 4 then 4 else precision).toNat + 1)) := by ring
  rw [h8, Nat.mul_div_cancel_left _ (by norm_num)]

/-- C6: the indexed icosahedron demos build a mesh of exactly 12 vertex
positions (SimpleIndexVAOFactory interleaves 12 positions with 12 colours in
one 24-entry list; ExtendedVAOFactory keeps 12 positions and 12 colours in
separate lists) and exactly 60 = 20 × 3 indices, every one of which is
strictly less than 12. -/
theorem icosahedron_mesh_counts :
    simple_index_verts.length = 2 * 12
    ∧ simple_index_indices.length = 20 * 3
    ∧ simple_index_indices.all (fun i => decide (i < 12)) = true
    ∧ extended_vao_verts.length = 12
    ∧ extended_vao_colours.length = 12
    ∧ extended_vao_indices.length = 20 * 3
    ∧ extended_vao_indices.all (fun i => decide (i < 12)) = true := by
  refine ⟨?_, by decide, by decide, ?_, ?_, by decide, by decide⟩
  · simp [simple_index_verts]
  · simp [extended_vao_verts]
  · simp [extended_vao_colours]

/-- C1: whenever `MultiBufferIndexVAO.draw(start_index, amount)` on a bound and
allocated VAO issues an element draw call, its byte offset is `start_index`
times the byte width of the stored index type (4 for GL_UNSIGNED_INT, 2 for
GL_UNSIGNED_SHORT, 1 for GL_UNSIGNED_BYTE) and its element count is `amount`
when `amount ≠ -1` and `m_indicesCount - start_index` when `amount = -1`. -/
theorem draw_call_offset_and_count (vao : MultiBufferIndexVAO) (s a : ℤ)
    (hb : vao.m_bound = true) (ha : vao.m_allocated = true) (c : GLCall)
    (hc : (MultiBufferIndexVAO.draw vao s a).2 = some c) :
    c = GLCall.drawElements vao.m_mode
          (if a = -1 then (vao.m_indicesCount : ℤ) - s else a)
          vao.m_index_type (s * index_type_byte_width vao.m_index_type) := by
  unfold MultiBufferIndexVAO.draw at hc
  unfold index_type_byte_width
  rw [hb, ha] at hc
  simp only [Bool.and_self, if_true] at hc
  split_ifs at hc ⊢ <;> simp_all

/-- Witness for C1: a bound, allocated VAO with GL_UNSIGNED_SHORT indices and
`m_indicesCount = 3`, drawn with `start_index = 1, amount = -1`, issues a
draw call of 2 elements at byte offset 2. -/
theorem draw_call_offset_and_count_witness :
    vao_bound_short.m_bound = true ∧ vao_bound_short.m_allocated = true
    ∧ GLCall.drawElements 4 2 5123 2
      = GLCall.drawElements vao_bound_short.m_mode
          (if (-1 : ℤ) = -1 then (vao_bound_short.m_indicesCount : ℤ) - 1 else -1)
          vao_bound_short.m_index_type
          (1 * index_type_byte_width vao_bound_short.m_index_type) :=
  ⟨rfl, rfl,
    draw_call_offset_and_count vao_bound_short 1 (-1) rfl rfl
      (GLCall.drawElements 4 2 5123 2) rfl⟩

/-- C8: `MultiBufferIndexVAO.draw` issues no draw call and leaves the VAO state
unchanged whenever the VAO is not bound, or not allocated, or the computed
element count is not positive, or the stored index type is unsupported. -/
theorem draw_guard_no_call (vao : MultiBufferIndexVAO) (s a : ℤ)
    (h : vao.m_bound = false ∨ vao.m_allocated = false
      ∨ (if a = -1 then (vao.m_indicesCount : ℤ) - s else a) ≤ 0
      ∨ (vao.m_index_type ≠ GL_UNSIGNED_INT ∧ vao.m_index_type ≠ GL_UNSIGNED_SHORT
          ∧ vao.m_index_type ≠ GL_UNSIGNED_BYTE)) :
    MultiBufferIndexVAO.draw vao s a = (vao, none) := by
  unfold MultiBufferIndexVAO.draw
  rcases h with h | h | h | h
  · rw [h]
    simp
  · rw [h]
    simp
  · split_ifs <;> simp_all
  · rcases h with ⟨h1, h2, h3⟩
    split_ifs <;> simp_all

/-- Witness for C8: drawing an unbound VAO issues no call and changes nothing. -/
theorem draw_guard_no_call_witness :
    vao_unbound.m_bound = false
    ∧ MultiBufferIndexVAO.draw vao_unbound 0 (-1) = (vao_unbound, none) :=
  ⟨rfl, draw_guard_no_call vao_unbound 0 (-1) (Or.inl rfl)⟩

/-- A `set_data(data, index=None)` call on a bound VAO appends exactly one
freshly generated buffer id and keeps the VAO bound. -/
theorem set_data_none_appends (gl : GLState) (vao : MultiBufferIndexVAO)
    (d : VertexData) (h : vao.m_bound = true) :
    (MultiBufferIndexVAO.set_data gl vao d none).2.1.m_vbo_ids
        = vao.m_vbo_ids ++ [gl.nextBufferId + 1]
    ∧ (MultiBufferIndexVAO.set_data gl vao d none).2.1.m_bound = true := by
  unfold MultiBufferIndexVAO.set_data
  rw [h]
  have hr : List.range 1 = [0] := rfl
  simp [Nat.sub_self, hr]

/-- `set_data` never changes `m_bound`. -/
theorem set_data_bound_eq (gl : GLState) (vao : MultiBufferIndexVAO)
    (d : VertexData) (index : Option ℕ) :
    (MultiBufferIndexVAO.set_data gl vao d index).2.1.m_bound = vao.m_bound := by
  unfold MultiBufferIndexVAO.set_data
  cases index <;> dsimp only [] <;> split_ifs <;> rfl

/-- Iterating `set_data(data, index=None)` over a bound VAO grows
`m_vbo_ids` by one buffer per call. -/
theorem set_data_none_iter_length (datas : List VertexData) :
    ∀ (gl : GLState) (vao : MultiBufferIndexVAO), vao.m_bound = true →
      (set_data_none_iter gl vao datas).2.m_vbo_ids.length
        = vao.m_vbo_ids.length + datas.length := by
  induction datas with
  | nil =>
    intro gl vao _
    simp [set_data_none_iter]
  | cons d rest ih =>
    intro gl vao h
    have step := set_data_none_appends gl vao d h
    unfold set_data_none_iter
    rw [ih _ _ step.2, step.1]
    simp
    omega

/-- Allocation potential: one `set_indices` call generates the index buffer at
most once, does so only while `m_index_buffer_id = 0`, and once the id is
nonzero it stays nonzero, so the generation count plus the remaining
potential never exceeds the starting potential. -/
theorem set_indices_alloc_potential (gl : GLState) (vao : MultiBufferIndexVAO)
    (d : List ℤ) (t m : ℕ) :
    genBufferCount (MultiBufferIndexVAO.set_indices gl vao d t m).2.2
      + (if (MultiBufferIndexVAO.set_indices gl vao d t m).2.1.m_index_buffer_id = 0
          then 1 else 0)
    ≤ (if vao.m_index_buffer_id = 0 then 1 else 0) := by
  unfold MultiBufferIndexVAO.set_indices
  split_ifs <;> simp_all [genBufferCount]

/-- Across any sequence of `set_indices` calls the index buffer is generated at
most `1` time when starting from a zero id, and `0` times otherwise. -/
theorem set_indices_iter_alloc_le (calls : List (List ℤ × ℕ × ℕ)) :
    ∀ (gl : GLState) (vao : MultiBufferIndexVAO),
      (set_indices_iter gl vao calls).2.2
        ≤ (if vao.m_index_buffer_id = 0 then 1 else 0) := by
  induction calls with
  | nil =>
    intro gl vao
    simp [set_indices_iter]
  | cons c rest ih =>
    intro gl vao
    obtain ⟨d, t, m⟩ := c
    have hpot := set_indices_alloc_potential gl vao d t m
    have hrest := ih (MultiBufferIndexVAO.set_indices gl vao d t m).1
      (MultiBufferIndexVAO.set_indices gl vao d t m).2.1
    unfold set_indices_iter
    dsimp only []
    omega

/-- C2: the VAO supports multiple attribute buffers and an optional index
buffer: starting from a bound VAO, one `set_data(data, index=None)` call
appends exactly one freshly generated buffer id to `m_vbo_ids`; starting
from a bound VAO with no buffers, after `k` such calls `m_vbo_ids` holds
exactly `k` ids; and across any sequence of `set_indices` calls the index
buffer is generated at most once (only while `m_index_buffer_id` is 0). -/
theorem multi_buffer_vao_buffer_accounting (gl : GLState)
    (vao : MultiBufferIndexVAO) (d : VertexData) (datas : List VertexData)
    (calls : List (List ℤ × ℕ × ℕ)) :
    (MultiBufferIndexVAO.set_data gl { vao with m_bound := true } d none).2.1.m_vbo_ids
        = vao.m_vbo_ids ++ [gl.nextBufferId + 1]
    ∧ (set_data_none_iter gl { vao with m_bound := true, m_vbo_ids := [] } datas).2.m_vbo_ids.length
        = datas.length
    ∧ (set_indices_iter gl vao calls).2.2 ≤ 1 := by
  refine ⟨(set_data_none_appends gl _ d rfl).1, ?_, ?_⟩
  · have := set_data_none_iter_length datas gl
      { vao with m_bound := true, m_vbo_ids := [] } rfl
    simpa using this
  · have := set_indices_iter_alloc_le calls gl vao
    split_ifs at this <;> omega

/-- C7: on a bound VAO, `set_data` is a thin wrapper that issues only a
generate-buffers call (and only when the target index has no buffer yet),
one bind, and one upload; it leaves `m_index_buffer_id`, `m_index_type`,
`m_indicesCount`, `m_bound` and `m_mode` unchanged and sets `m_allocated`
to True. -/
theorem set_data_thin_wrapper (gl : GLState) (vao0 : MultiBufferIndexVAO)
    (data : VertexData) (index : Option ℕ) :
    let vao : MultiBufferIndexVAO := { vao0 with m_bound := true }
    let r := MultiBufferIndexVAO.set_data gl vao data index
    let idx := match index with
      | none => vao.m_vbo_ids.length
      | some i => i
    r.2.1.m_index_buffer_id = vao.m_index_buffer_id
    ∧ r.2.1.m_index_type = vao.m_index_type
    ∧ r.2.1.m_indicesCount = vao.m_indicesCount
    ∧ r.2.1.m_bound = true
    ∧ r.2.1.m_mode = vao.m_mode
    ∧ r.2.1.m_allocated = true
    ∧ r.2.2 = (if vao.m_vbo_ids.length ≤ idx
          then [GLCall.genBuffers (idx - vao.m_vbo_ids.length + 1)] else [])
        ++ [GLCall.bindBuffer GL_ARRAY_BUFFER (r.2.1.m_vbo_ids.getD idx 0),
            GLCall.bufferData GL_ARRAY_BUFFER (4 * data.data.length) data.mode] := by
  unfold MultiBufferIndexVAO.set_data
  cases index <;> dsimp only [] <;> split_ifs <;> simp_all

/-- C10: `set_indices` on a bound VAO with a list and an unsupported index
type returns without uploading any index data (the trace holds at most the
index-buffer generation, never a bufferData upload), but has already
overwritten `m_index_type` with the unsupported type and `m_indicesCount`
with the length of the data: the error path does not leave the state
unchanged. -/
theorem set_indices_unsupported_type_mutates (gl : GLState)
    (vao0 : MultiBufferIndexVAO) (data : List ℤ) (index_type mode : ℕ)
    (h1 : index_type ≠ GL_UNSIGNED_INT) (h2 : index_type ≠ GL_UNSIGNED_SHORT)
    (h3 : index_type ≠ GL_UNSIGNED_BYTE) :
    let vao : MultiBufferIndexVAO := { vao0 with m_bound := true }
    let r := MultiBufferIndexVAO.set_indices gl vao data index_type mode
    r.2.1.m_index_type = index_type
    ∧ r.2.1.m_indicesCount = data.length
    ∧ r.2.2 = (if vao.m_index_buffer_id = 0 then [GLCall.genBuffers 1] else []) := by
  unfold MultiBufferIndexVAO.set_indices
  dsimp only []
  split_ifs <;> simp_all

/-- Witness for C10: a bound VAO handed two indices with the unsupported type
GL_FLOAT records the type and the count 2 while issuing only the
index-buffer generation. -/
theorem set_indices_unsupported_type_mutates_witness :
    GL_FLOAT ≠ GL_UNSIGNED_INT ∧ GL_FLOAT ≠ GL_UNSIGNED_SHORT
    ∧ GL_FLOAT ≠ GL_UNSIGNED_BYTE
    ∧ ((MultiBufferIndexVAO.set_indices gl0 { vao_unbound with m_bound := true }
          [0, 1] GL_FLOAT GL_STATIC_DRAW).2.1.m_index_type = GL_FLOAT
        ∧ (MultiBufferIndexVAO.set_indices gl0 { vao_unbound with m_bound := true }
          [0, 1] GL_FLOAT GL_STATIC_DRAW).2.1.m_indicesCount = ([0, 1] : List ℤ).length
        ∧ (MultiBufferIndexVAO.set_indices gl0 { vao_unbound with m_bound := true }
          [0, 1] GL_FLOAT GL_STATIC_DRAW).2.2
          = (if ({ vao_unbound with m_bound := true } : MultiBufferIndexVAO).m_index_buffer_id = 0
              then [GLCall.genBuffers 1] else [])) :=
  ⟨by decide, by decide, by decide,
    set_indices_unsupported_type_mutates gl0 vao_unbound [0, 1] GL_FLOAT
      GL_STATIC_DRAW (by decide) (by decide) (by decide)⟩

/-- C3 counterexample: contrary to "no operation raises an exception to the
caller", `set_data` called with an argument that is not a VertexData raises
TypeError("data must be of type VertexData") to the caller. -/
theorem set_data_wrong_type_raises :
    MultiBufferIndexVAO.set_data_checked gl0 vao_unbound PyArg.other none
      = Except.error "data must be of type VertexData" := rfl

/-- C3 (amended): shader-load failure closes the window after logging, and an
unsupported index type in `draw` only logs and issues no call; but a
wrongly-typed `data` argument makes `set_data` / `set_indices` raise a
TypeError to the caller, while correctly-typed arguments never raise. -/
theorem error_responses_amended (gl : GLState) (vao : MultiBufferIndexVAO)
    (index : Option ℕ) (t m : ℕ) (s a : ℤ) :
    MultiBufferIndexVAO.set_data_checked gl vao PyArg.other index
        = Except.error "data must be of type VertexData"
    ∧ MultiBufferIndexVAO.set_indices_checked gl vao PyArg.other t m
        = Except.error "data must be of type List"
    ∧ (∀ v : VertexData, ∃ r,
        MultiBufferIndexVAO.set_data_checked gl vao (PyArg.vertexData v) index
          = Except.ok r)
    ∧ (∀ l : List ℤ, ∃ r,
        MultiBufferIndexVAO.set_indices_checked gl vao (PyArg.intList l) t m
          = Except.ok r)
    ∧ (MultiBufferIndexVAO.draw { vao with m_index_type := GL_FLOAT } s a).2 = none
    ∧ initializeGL_closes_on_shader_failure false = true
    ∧ initializeGL_closes_on_shader_failure true = false := by
  refine ⟨rfl, rfl, fun v => ⟨_, rfl⟩, fun l => ⟨_, rfl⟩, ?_, rfl, rfl⟩
  unfold MultiBufferIndexVAO.draw
  dsimp only []
  split_ifs <;> simp_all [GL_FLOAT, GL_UNSIGNED_INT, GL_UNSIGNED_SHORT, GL_UNSIGNED_BYTE]

/-- A Transform whose position is the origin is the identity matrix. -/
theorem translation_mat_zero : translation_mat 0 0 0 = (1 : Mat4) := by
  funext i j
  fin_cases i <;> fin_cases j <;> decide

/-- C4 counterexample: the first MVP value ExtendedVAOFactory's `paintGL`
writes before drawing is `project @ view @ t.get_matrix() @ mouse_global_tx`
with `t` translated to (-1.2, 0, 0); at identity project, view and mouse
transforms it differs from `project @ view @ mouseGlobalTX` (the value the
other demos, such as Sphere, write), so the claim is false for that demo. -/
theorem extended_vao_mvp_cex :
    extended_vao_first_draw_mvp 1 1 1 ≠ sphere_mvp 1 1 1 := by
  intro h
  have h1 : extended_vao_first_draw_mvp 1 1 1 = translation_mat (-(6/5)) 0 0 := by
    unfold extended_vao_first_draw_mvp extended_vao_mvp
    simp
  have h2 : sphere_mvp 1 1 1 = (1 : Mat4) := by
    unfold sphere_mvp
    simp
  rw [h1, h2] at h
  have h3 := Matrix.ext_iff.2 h 3 0
  simp [translation_mat, Matrix.one_apply] at h3

/-- C4 (amended): the Sphere, SimpleIndexVAOFactory, ChangingVAO, Boid and
BoidShaded demos write `MVP = project @ view @ mouseGlobalTX`;
ExtendedVAOFactory inserts a per-object translation between the view and the
mouse transform (reducing to the claimed product exactly when that
translation is the origin, as in its second draw), and the PBR demo's colour
pass computes `projection @ view @ mouse_global_tx @ transform`. -/
theorem mvp_uniform_amended (p v m t : Mat4) :
    sphere_mvp p v m = p * v * m
    ∧ simple_index_mvp p v m = p * v * m
    ∧ changing_vao_mvp p v m = p * v * m
    ∧ boid_mvp p v m = p * v * m
    ∧ boid_shaded_mvp p v m = p * v * m
    ∧ extended_vao_mvp p v t m = p * v * t * m
    ∧ extended_vao_mvp p v (translation_mat 0 0 0) m = p * v * m
    ∧ pbr_colour_mvp p v m t = p * v * m * t := by
  refine ⟨rfl, rfl, rfl, rfl, mul_assoc p v m |>.symm, rfl, ?_, ?_⟩
  · unfold extended_vao_mvp
    rw [translation_mat_zero, mul_one]
  · unfold pbr_colour_mvp
    dsimp only []
    rw [← mul_assoc, ← mul_assoc]

/-- C5 counterexample: in the PBRTexture demo, with the translate flag set and
the right mouse button held, a mouse move of 100 pixels leaves the model
position unchanged instead of adding `INCREMENT * 100 = 1` to its x
component: `mouseMoveEvent` there has no translation branch, so the claim
is false for that demo. -/
theorem pbr_translate_ignored_cex :
    (pbr_mouseMoveEvent pbr_cex_state Qt_RightButton 100 0).modelPosX
      ≠ pbr_cex_state.modelPosX
        + (1/100) * ((pyInt (100 - pbr_cex_state.origXPos) : ℤ) : ℚ) := by
  simp [pbr_mouseMoveEvent, pbr_cex_state, pyInt, Qt_RightButton, Qt_LeftButton]

/-- C5 (amended): in the six VertexArrayObject demos (Sphere,
SimpleIndexVAOFactory, ChangingVAO, ExtendedVAOFactory, Boid, BoidShaded,
which share this handler verbatim), a mouse move with the rotate flag and
left button adds `int(0.5 * delta)` to the spin faces and re-origins, and a
move with the translate flag and right button adds `INCREMENT` times the
integer deltas to the model position; the PBRTexture demo implements only
the rotation branch and ignores every other move. -/
theorem mouse_move_amended (inc : ℚ) (s : DemoMouseState) (buttons : ℕ)
    (px py : ℚ) :
    vao_demo_mouseMoveEvent inc { s with rotate := true } Qt_LeftButton px py
        = { s with
            rotate := true
            spinXFace := s.spinXFace + pyInt (1/2 * (py - s.origY))
            spinYFace := s.spinYFace + pyInt (1/2 * (px - s.origX))
            origX := px
            origY := py }
    ∧ vao_demo_mouseMoveEvent inc { s with rotate := false, translate := true }
        Qt_RightButton px py
        = { s with
            rotate := false
            translate := true
            origXPos := px
            origYPos := py
            modelPosX := s.modelPosX + inc * ((pyInt (px - s.origXPos) : ℤ) : ℚ)
            modelPosY := s.modelPosY - inc * ((pyInt (py - s.origYPos) : ℤ) : ℚ) }
    ∧ pbr_mouseMoveEvent { s with rotate := true } Qt_LeftButton px py
        = { s with
            rotate := true
            spinXFace := s.spinXFace + pyInt (1/2 * (py - s.origY))
            spinYFace := s.spinYFace + pyInt (1/2 * (px - s.origX))
            origX := px
            origY := py }
    ∧ pbr_mouseMoveEvent { s with rotate := false } buttons px py
        = { s with rotate := false } := by
  refine ⟨rfl, rfl, rfl, ?_⟩
  unfold pbr_mouseMoveEvent
  simp
